import Mathlib

/-!
Verification of the github2gitea migration orchestrator.

This file gives a shallow embedding, in Lean, of the permission mapping,
team creation, repository migration, collaborator replication, roster
parsing and SSH-key accounting logic of the repository, and proves (or
refutes) the specified properties about those definitions.  Network
effects are made explicit: every remote operation is a field of an
environment record returning an `Except`, and functions that issue
remote calls additionally return the list of calls they issued, so that
statements such as "returns an error before any network call" are
expressible.
-/

namespace GH2GT

/-! ## Constants from pkg/core/permission.go -/

def GitHubTeamPull : String := "pull"

def GitHubTeamPush : String := "push"

def GitHubTeamAdmin : String := "admin"

def GitHubTeamMaintain : String := "maintain"

def GitHubTeamTriager : String := "triager"

/-- Gitea SDK access modes (string constants of `gsdk.AccessMode`). -/
def AccessModeRead : String := "read"

def AccessModeWrite : String := "write"

def AccessModeAdmin : String := "admin"

def AccessModeOwner : String := "owner"

/-- `core.DefaultUnits`: the fixed resource-unit bundle applied to every created team. -/
def DefaultUnits : List String :=
  ["repo.code", "repo.issues", "repo.ext_issues", "repo.ext_wiki", "repo.packages",
   "repo.projects", "repo.pulls", "repo.releases", "repo.wiki", "repo.actions"]

/-! ## GitHub permission bundles

A GitHub collaborator carries `Permissions map[string]bool`.  Go map
indexing yields the zero value `false` for an absent key; we embed the
map as an association list and give lookup exactly that default. -/

def Permissions : Type := List (String × Bool)

instance : DecidableEq Permissions := by
  unfold Permissions
  infer_instance

instance : Repr Permissions := by
  unfold Permissions
  infer_instance

/-- `m[k]` on a Go `map[string]bool`: `false` when the key is absent. -/
def permGet (m : Permissions) (k : String) : Bool :=
  (m.lookup k).getD false

/-- `convert.FromPtr` on a `*string`: dereference, with `""` for `nil`. -/
def fromPtr (o : Option String) : String :=
  o.getD ""

/-! ## gitea.Client.AddCollaborator (pkg/gitea/gitea.go)

The switch that picks the destination access mode from the source
permission bundle; the chosen mode is then sent with the
`AddCollaborator` API call. -/

def addCollaboratorAccess (permission : Permissions) : String :=
  if permGet permission GitHubTeamAdmin then AccessModeAdmin
  else if permGet permission GitHubTeamMaintain then AccessModeOwner
  else if permGet permission GitHubTeamPush then AccessModeWrite
  else if permGet permission GitHubTeamPull then AccessModeRead
  else AccessModeRead

/-! ## gitea.Client.MigrateRepo (pkg/gitea/gitea.go) -/

structure MigrateRepoOption where
  repoName : String
  repoOwner : String
  cloneAddr : String
  privateRepo : Bool
  description : String
  authUsername : String
  authToken : String
  deriving DecidableEq, Repr

/-- The `gsdk.MigrateRepoOption` payload actually sent to the Gitea server. -/
structure SdkMigrateRepoOption where
  repoName : String
  repoOwner : String
  cloneAddr : String
  privateRepo : Bool
  description : String
  authUsername : String
  authToken : String
  service : String
  wiki : Bool
  milestones : Bool
  issues : Bool
  releases : Bool
  labels : Bool
  pullRequests : Bool
  deriving DecidableEq, Repr

structure Repository where
  name : String
  deriving DecidableEq, Repr

def migrateRepoParamError : String :=
  "missing required migration parameters: RepoName, RepoOwner and CloneAddr are required"

/-- The payload `MigrateRepo` builds from its options (content bundle fixed). -/
def mkSdkMigrateOption (opts : MigrateRepoOption) : SdkMigrateRepoOption :=
  { repoName := opts.repoName
    repoOwner := opts.repoOwner
    cloneAddr := opts.cloneAddr
    privateRepo := opts.privateRepo
    description := opts.description
    authUsername := opts.authUsername
    authToken := opts.authToken
    service := "github"
    wiki := true
    milestones := true
    issues := true
    releases := true
    labels := true
    pullRequests := true }

/-- `gitea.Client.MigrateRepo`: validate the three required fields, then
invoke the server-side repository import.  `net` stands for the remote
`client.MigrateRepo` call; the second component lists the payloads
actually sent over the network. -/
def giteaMigrateRepo (net : SdkMigrateRepoOption → Except String Repository)
    (opts : MigrateRepoOption) : Except String Repository × List SdkMigrateRepoOption :=
  if opts.repoName = "" ∨ opts.repoOwner = "" ∨ opts.cloneAddr = "" then
    (.error migrateRepoParamError, [])
  else
    (net (mkSdkMigrateOption opts), [mkSdkMigrateOption opts])

/-! ## gitea.Client.CreateOrGetTeam (pkg/gitea/gitea.go) -/

/-- `gitea.CreateTeamOption`: the wrapper options taken by `CreateOrGetTeam`. -/
structure CreateTeamOption where
  name : String
  description : String
  permission : String
  deriving DecidableEq, Repr

/-- `gsdk.CreateTeamOption`: the payload sent to the Gitea server. -/
structure SdkCreateTeamOption where
  name : String
  description : String
  permission : String
  canCreateOrgRepo : Bool
  units : List String
  deriving DecidableEq, Repr

structure Team where
  id : Int
  name : String
  deriving DecidableEq, Repr

/-- The permission-mapping phase of `CreateOrGetTeam`: the payload starts
with `Permission: gsdk.AccessMode(opts.Permission)` (the raw token) and
the fixed unit bundle, then the switch adjusts it.  The `triager` case
of the Go switch has an empty body, so it leaves the payload untouched
and (Go switches do not fall through) skips the `default` error. -/
def createOrGetTeamOpt (opts : CreateTeamOption) : Except String SdkCreateTeamOption :=
  let base : SdkCreateTeamOption :=
    { name := opts.name
      description := opts.description
      permission := opts.permission
      canCreateOrgRepo := false
      units := DefaultUnits }
  if opts.permission = GitHubTeamAdmin then
    .ok { base with permission := AccessModeAdmin, canCreateOrgRepo := true }
  else if opts.permission = GitHubTeamPush then
    .ok { base with permission := AccessModeWrite }
  else if opts.permission = GitHubTeamPull then
    .ok { base with permission := AccessModeRead }
  else if opts.permission = GitHubTeamMaintain then
    .ok { base with permission := AccessModeWrite }
  else if opts.permission = GitHubTeamTriager then
    .ok base
  else
    .error "permission mode invalid"

/-- The remote calls `CreateOrGetTeam` can issue. -/
inductive TeamCall where
  | searchOrgTeams (org query : String)
  | createTeam (org : String) (opt : SdkCreateTeamOption)
  deriving DecidableEq, Repr

/-- Environment for `CreateOrGetTeam`: the two remote operations it uses. -/
structure TeamEnv where
  searchOrgTeams : String → String → Except String (List Team)
  createTeam : String → SdkCreateTeamOption → Except String Team

/-- `gitea.Client.CreateOrGetTeam`: map the permission, search the
organization for a team of that name, reuse the first match, otherwise
create the team.  Also returns the list of remote calls issued. -/
def createOrGetTeam (env : TeamEnv) (org : String) (opts : CreateTeamOption) :
    Except String Team × List TeamCall :=
  match createOrGetTeamOpt opts with
  | .error e => (.error e, [])
  | .ok opt =>
    match env.searchOrgTeams org opt.name with
    | .error e => (.error e, [.searchOrgTeams org opt.name])
    | .ok teams =>
      match teams with
      | t :: _ => (.ok t, [.searchOrgTeams org opt.name])
      | [] =>
        match env.createTeam org opt with
        | .error e => (.error e, [.searchOrgTeams org opt.name, .createTeam org opt])
        | .ok team => (.ok team, [.searchOrgTeams org opt.name, .createTeam org opt])

/-! ## Team-name sanitization (pkg/migrate/migrate.go)

`invalidCharsRegex = regexp.MustCompile("[^a-zA-Z0-9\\-_\\.]")` and
`invalidCharsRegex.ReplaceAllString(name, "_")`: the class matches one
rune at a time, so replacement substitutes `_` for each disallowed
character. -/

def isAllowedTeamChar (c : Char) : Bool :=
  (('a' ≤ c ∧ c ≤ 'z') ∨ ('A' ≤ c ∧ c ≤ 'Z') ∨ ('0' ≤ c ∧ c ≤ '9')
    ∨ c = '-' ∨ c = '_' ∨ c = '.' : Prop)

def sanitizeTeamName (s : String) : String :=
  ⟨s.data.map (fun c => if isAllowedTeamChar c then c else '_')⟩

/-! ## migrate.MigrateNewRepo (pkg/migrate/migrate.go)

The collaborator-replication loop.  A GitHub user record carries a
login, a type tag and its permission bundle (the fields this loop
reads); `GetUser` resolves a login to a fresh user record. -/

structure GhUser where
  login : String
  type : String
  name : Option String
  email : Option String
  permissions : Permissions
  deriving DecidableEq, Repr

structure MigrateNewRepoOption where
  owner : String
  name : String
  cloneAddr : String
  description : String
  privateRepo : Bool
  authUsername : String
  authToken : String
  deriving DecidableEq, Repr

/-- One recorded `gtClient.AddCollaborator(org, repo, user, permission)` call. -/
structure GrantCall where
  org : String
  repo : String
  user : String
  permission : Permissions
  deriving DecidableEq, Repr

/-- Environment for `MigrateNewRepo`: the remote operations it uses. -/
structure RepoEnv where
  giteaMigrate : SdkMigrateRepoOption → Except String Repository
  listRepoCollaborators : String → String → Except String (List GhUser)
  getUser : String → Except String GhUser
  addCollaborator : GrantCall → Except String Unit

/-- One iteration of the collaborator loop, returning the grant calls it
issues.  Entries whose type is not `"User"` are skipped; otherwise the
loop re-fetches the user by login — shadowing the loop variable — and
passes the permissions of the *fetched* record to `AddCollaborator`.
An `AddCollaborator` error is logged and the loop continues, so the call
is recorded regardless of its outcome. -/
def collabStep (env : RepoEnv) (owner repo : String) (ghUser : GhUser) : List GrantCall :=
  if ghUser.type ≠ "User" then []
  else
    match env.getUser ghUser.login with
    | .error _ => []
    | .ok fetched => [{ org := owner, repo := repo, user := fetched.login,
                        permission := fetched.permissions }]

/-- The `gitea.MigrateRepoOption` that `MigrateNewRepo` builds from its options. -/
def mkMigrateOption (opts : MigrateNewRepoOption) : MigrateRepoOption :=
  { repoName := opts.name
    repoOwner := opts.owner
    cloneAddr := opts.cloneAddr
    privateRepo := opts.privateRepo
    description := opts.description
    authUsername := opts.authUsername
    authToken := opts.authToken }

/-- `migrate.MigrateNewRepo`: migrate the repository, then list the
source collaborators and replicate each user-type entry.  Returns the
function result and the `AddCollaborator` calls issued. -/
def migrateNewRepo (env : RepoEnv) (opts : MigrateNewRepoOption) :
    Except String Unit × List GrantCall :=
  match (giteaMigrateRepo env.giteaMigrate (mkMigrateOption opts)).1 with
  | .error e => (.error e, [])
  | .ok _ =>
    match env.listRepoCollaborators opts.owner opts.name with
    | .error e => (.error e, [])
    | .ok ghUsers =>
      (.ok (), (ghUsers.map (collabStep env opts.owner opts.name)).flatten)

/-! ## migrate.CreateNewOrg (pkg/migrate/migrate.go)

Organization creation, the member-replication loop and the
team-replication loop.  Error-branch `logger.Error` calls are recorded
as a trace of log tags so that "logged and continued" versus "silently
discarded" is observable in the model. -/

structure Organization where
  userName : String
  deriving DecidableEq, Repr

structure GtUser where
  loginName : String
  userName : String
  deriving DecidableEq, Repr

structure GhTeam where
  name : Option String
  description : Option String
  permission : Option String
  slug : String
  deriving DecidableEq, Repr

def VisibleTypePublic : String := "public"

def VisibleTypePrivate : String := "private"

structure CreateOrgOption where
  name : String
  description : String
  visibility : String
  deriving DecidableEq, Repr

structure CreateUserOption where
  sourceID : Int
  loginName : String
  username : String
  fullName : String
  email : String
  deriving DecidableEq, Repr

/-- `migrate.CreateNewOrgOption` (the source spells the id field `SoucreID`). -/
structure CreateNewOrgOption where
  name : String
  description : String
  public : Bool
  soucreID : Int
  deriving DecidableEq, Repr

/-- Environment for `CreateNewOrg`: the remote operations it uses. -/
structure OrgEnv where
  createAndGetOrg : CreateOrgOption → Except String Organization
  listOrgUsers : String → Except String (List GhUser)
  getUser : String → Except String GhUser
  createOrGetUser : CreateUserOption → Except String GtUser
  getUserPermissionFromOrg : String → String → Except String String
  listOrgTeams : String → Except String (List GhTeam)
  createOrGetTeam : String → CreateTeamOption → Except String Team
  listOrgTeamsMembers : String → String → Except String (List GhUser)
  addTeamMember : Int → String → Except String Unit

/-- One iteration of the member-replication loop: resolve the profile
(shadowing the loop variable), create-or-reuse the destination user,
fetch the source role; each failure logs one error tag and continues. -/
def memberStepLogs (env : OrgEnv) (orgName : String) (sourceID : Int)
    (ghUser : GhUser) : List String :=
  match env.getUser ghUser.login with
  | .error _ => ["failed to get github user"]
  | .ok fetched =>
    match env.createOrGetUser
        { sourceID := sourceID
          loginName := fetched.login
          username := fetched.login
          fullName := fromPtr fetched.name
          email := fromPtr fetched.email } with
    | .error _ => ["failed to create gitea user"]
    | .ok gtUser =>
      match env.getUserPermissionFromOrg orgName gtUser.loginName with
      | .error _ => ["failed to get github user permission"]
      | .ok _ => []

/-- One iteration of the team-replication loop: sanitize the team name,
create-or-reuse the team (the call is recorded), then add the team
members; each failure logs one error tag and continues. -/
def teamStep (env : OrgEnv) (orgName : String) (ghTeam : GhTeam) :
    (String × CreateTeamOption) × List String :=
  let ctOpts : CreateTeamOption :=
    { name := sanitizeTeamName (fromPtr ghTeam.name)
      description := fromPtr ghTeam.description
      permission := fromPtr ghTeam.permission }
  match env.createOrGetTeam orgName ctOpts with
  | .error _ => ((orgName, ctOpts), ["failed to create gitea team"])
  | .ok team =>
    match env.listOrgTeamsMembers orgName ghTeam.slug with
    | .error _ => ((orgName, ctOpts), ["failed to get github team members"])
    | .ok members =>
      ((orgName, ctOpts),
        members.filterMap fun u =>
          match env.addTeamMember team.id u.login with
          | .error _ => some "failed to add gitea team member"
          | .ok _ => none)

/-- Result of `CreateNewOrg` with its observable traces: the
`CreateOrGetTeam` calls issued and the error-log tags emitted. -/
structure CreateNewOrgTrace where
  result : Except String Organization
  teamCalls : List (String × CreateTeamOption)
  errLogs : List String
  deriving Repr

/-- `migrate.CreateNewOrg`.  Note the team-listing step: the source
reads `ghTeams, err := m.ghClient.ListOrgTeams(...)` and follows it
with `if err != nil { }` — an empty body — so a listing error is
neither logged nor returned; the loop then ranges over the `nil`
slice the failed listing produced. -/
def createNewOrg (env : OrgEnv) (opts : CreateNewOrgOption) : CreateNewOrgTrace :=
  let visibility := if opts.public then VisibleTypePublic else VisibleTypePrivate
  match env.createAndGetOrg
      { name := opts.name, description := opts.description, visibility := visibility } with
  | .error e => ⟨.error e, [], []⟩
  | .ok org =>
    match env.listOrgUsers opts.name with
    | .error e => ⟨.error e, [], []⟩
    | .ok ghUsers =>
      let memberLogs := (ghUsers.map (memberStepLogs env opts.name opts.soucreID)).flatten
      let ghTeams :=
        match env.listOrgTeams opts.name with
        | .error _ => ([] : List GhTeam)
        | .ok ts => ts
      let teamResults := ghTeams.map (teamStep env opts.name)
      ⟨.ok org, teamResults.map Prod.fst, memberLogs ++ (teamResults.map Prod.snd).flatten⟩

/-! ## migrateOrgAndRepos (cmd/github2gitea/main.go)

The top-level run: authenticate both sides, fetch the source
organization, create-or-reuse the destination organization, list the
source repositories and migrate them one by one.  The per-repository
loop only logs a migration error — there is no `continue`, `break` or
`return` in its error branch — so every repository is attempted and the
function returns `nil`. -/

structure GhOrg where
  description : Option String
  login : Option String
  deriving DecidableEq, Repr

structure GhRepo where
  ownerLogin : Option String
  name : Option String
  cloneURL : Option String
  description : Option String
  privateRepo : Option Bool
  deriving DecidableEq, Repr

structure MainConfig where
  ghToken : String
  sourceOrg : String
  targetOrg : String
  gtSourceID : Int
  deriving DecidableEq, Repr

/-- Environment for `migrateOrgAndRepos`: the operations it calls. -/
structure MainEnv where
  ghCurrentUser : Except String GhUser
  gtCurrentUser : Except String GtUser
  getOrg : String → Except String GhOrg
  createNewOrg : CreateNewOrgOption → Except String Organization
  listOrgRepos : String → Except String (List GhRepo)
  migrateNewRepo : MigrateNewRepoOption → Except String Unit

/-- The `MigrateNewRepoOption` built for one source repository. -/
def mkRepoOption (cfg : MainConfig) (ghUser : GhUser) (repo : GhRepo) :
    MigrateNewRepoOption :=
  { owner := fromPtr repo.ownerLogin
    name := fromPtr repo.name
    cloneAddr := fromPtr repo.cloneURL
    description := fromPtr repo.description
    privateRepo := repo.privateRepo.getD false
    authUsername := ghUser.login
    authToken := cfg.ghToken }

/-- `migrateOrgAndRepos`.  The second component is the per-repository
attempt trace: the option passed to `MigrateNewRepo` and its outcome,
in source order. -/
def migrateOrgAndRepos (env : MainEnv) (cfg : MainConfig) :
    Except String Unit × List (MigrateNewRepoOption × Except String Unit) :=
  match env.ghCurrentUser with
  | .error e => (.error e, [])
  | .ok ghUser =>
    match env.gtCurrentUser with
    | .error e => (.error e, [])
    | .ok _ =>
      match env.getOrg cfg.sourceOrg with
      | .error e => (.error e, [])
      | .ok ghOrg =>
        match env.createNewOrg
            { name := cfg.targetOrg
              description := fromPtr ghOrg.description
              public := false
              soucreID := cfg.gtSourceID } with
        | .error e => (.error e, [])
        | .ok _ =>
          match env.listOrgRepos cfg.sourceOrg with
          | .error e => (.error e, [])
          | .ok repos =>
            (.ok (),
              repos.map fun r =>
                let o := mkRepoOption cfg ghUser r
                (o, env.migrateNewRepo o))

/-! ## readUserList (cmd/github2gitea/main.go)

Roster parsing: the CSV records have already been read into a list of
rows; the loop skips the header row (index 0) and every row with fewer
than five columns, and keeps columns 2, 3 and 4 (login, email, role). -/

structure UserCSV where
  login : String
  email : String
  role : String
  deriving DecidableEq, Repr

/-- The indexed loop body of `readUserList`, carrying the current row index. -/
def readUserListGo (idx : Nat) : List (List String) → List UserCSV
  | [] => []
  | rec :: rest =>
    if idx = 0 ∨ rec.length < 5 then readUserListGo (idx + 1) rest
    else
      { login := rec.getD 2 "", email := rec.getD 3 "", role := rec.getD 4 "" } ::
        readUserListGo (idx + 1) rest

/-- `readUserList` applied to the parsed CSV records. -/
def readUserList (records : List (List String)) : List UserCSV :=
  readUserListGo 0 records

/-! ## SSH-key replication accounting (cmd/github2gitea/main.go)

`createUsersFromCSV` uploads each of a user's SSH keys and counts the
outcome into one of three counters.  The helper string functions are
the hand-rolled `indexOf` / `contains` / `containsKeyUsedMsg` of the
source; strings are embedded as their character sequences. -/

/-- The scan loop of `indexOf`: at position `i` the remaining suffix of
`s` is the argument; the loop guard `i+len(substr) <= len(s)` is
"`substr` still fits in the suffix", the window `s[i:i+len(substr)]` is
the prefix of the suffix, and the loop advances one position at a time. -/
def indexOfFrom (sub : List Char) : List Char → Nat → Int
  | [], i => if sub.length = 0 then (i : Int) else -1
  | c :: rest, i =>
    if sub.length ≤ (c :: rest).length then
      if (c :: rest).take sub.length = sub then (i : Int)
      else indexOfFrom sub rest (i + 1)
    else -1

/-- `indexOf`: index of the first occurrence of `substr` in `s`, `-1` if absent. -/
def indexOf (s substr : String) : Int :=
  indexOfFrom substr.data s.data 0

/-- `contains`: the source avoids the strings package and tests
`len(s) >= len(substr) && (s == substr || (len(s) > len(substr) && indexOf(s, substr) >= 0))`. -/
def goContains (s substr : String) : Bool :=
  (substr.length ≤ s.length
    ∧ (s = substr ∨ (substr.length < s.length ∧ 0 ≤ indexOf s substr)) : Prop)

/-- `containsKeyUsedMsg`: does the Gitea error message carry the known
duplicate-key phrase (either capitalization). -/
def containsKeyUsedMsg (msg : String) : Bool :=
  (msg ≠ ""
    ∧ (goContains msg "key content has been used" = true
        ∨ goContains msg "Key content has been used" = true) : Prop)

/-- Outcome of one `CreateUserPublicKey` upload: success, a typed
`*gitea.GiteaError` (operation, HTTP status code, message), or any
other error value (the type assertion in the source fails on it). -/
inductive UploadOutcome where
  | ok
  | giteaErr (operation : String) (code : Nat) (message : String)
  | otherErr (message : String)
  deriving DecidableEq, Repr

/-- The duplicate-key test of the source: the error is a `GiteaError`,
its code is 422 (unprocessable entity), its message is non-empty and
carries the duplicate-key phrase. -/
def isDuplicateKeyErr : UploadOutcome → Bool
  | .giteaErr _ code msg => (code = 422 ∧ msg ≠ "" ∧ containsKeyUsedMsg msg = true : Prop)
  | _ => false

/-- The per-user counters of the key loop. -/
structure KeyCounters where
  success : Nat
  exist : Nat
  failed : Nat
  deriving DecidableEq, Repr

/-- One iteration of the key loop: success increments `successCount`;
a failure passing the duplicate-key test increments `existCount` and
continues; any other failure increments `failedCount`. -/
def keyStep (c : KeyCounters) (o : UploadOutcome) : KeyCounters :=
  match o with
  | .ok => { c with success := c.success + 1 }
  | e =>
    if isDuplicateKeyErr e then { c with exist := c.exist + 1 }
    else { c with failed := c.failed + 1 }

/-- The whole key loop for one user, over the upload outcomes of the
user's keys in order. -/
def migrateKeyCounters (outcomes : List UploadOutcome) : KeyCounters :=
  outcomes.foldl keyStep ⟨0, 0, 0⟩

/-! ## Theorems -/

/-- C2: `AddCollaborator` selects exactly one destination access level
by evaluating the permission flags in priority order
admin > maintain > push > pull — the highest flag set wins — and
defaults to read when no recognized flag is set; a bundle whose highest
flag is maintain is mapped to write or an elevated non-admin level
(here `owner`). -/
theorem addCollaborator_priority (m : Permissions) :
    (permGet m GitHubTeamAdmin = true → addCollaboratorAccess m = AccessModeAdmin) ∧
    (permGet m GitHubTeamAdmin = false → permGet m GitHubTeamMaintain = true →
      addCollaboratorAccess m = AccessModeOwner) ∧
    (permGet m GitHubTeamAdmin = false → permGet m GitHubTeamMaintain = false →
      permGet m GitHubTeamPush = true → addCollaboratorAccess m = AccessModeWrite) ∧
    (permGet m GitHubTeamAdmin = false → permGet m GitHubTeamMaintain = false →
      permGet m GitHubTeamPush = false → addCollaboratorAccess m = AccessModeRead) ∧
    (permGet m GitHubTeamAdmin = false → permGet m GitHubTeamMaintain = true →
      (addCollaboratorAccess m = AccessModeWrite ∨
        (addCollaboratorAccess m ≠ AccessModeAdmin ∧ addCollaboratorAccess m ≠ AccessModeRead))) := by
  refine ⟨?_, ?_, ?_, ?_, ?_⟩
  · intro h
    simp [addCollaboratorAccess, h]
  · intro h1 h2
    simp [addCollaboratorAccess, h1, h2]
  · intro h1 h2 h3
    simp [addCollaboratorAccess, h1, h2, h3]
  · intro h1 h2 h3
    by_cases h4 : permGet m GitHubTeamPull = true
    · simp [addCollaboratorAccess, h1, h2, h3, h4]
    · simp [addCollaboratorAccess, h1, h2, h3, h4]
  · intro h1 h2
    right
    constructor
    · simp [addCollaboratorAccess, h1, h2]
      decide
    · simp [addCollaboratorAccess, h1, h2]
      decide

/-- C2 witness: a bundle whose only flag is `maintain` is mapped to `owner`. -/
theorem addCollaborator_priority_witness :
    addCollaboratorAccess [("maintain", true)] = AccessModeOwner :=
  (addCollaborator_priority [("maintain", true)]).2.1 (by decide) (by decide)

/-- C5: `MigrateRepo` returns an error without issuing any network call
whenever the repository name, owner or clone address is empty; when all
three are non-empty it sends the import request (with the full content
bundle) to the destination. -/
theorem migrateRepo_validation (net : SdkMigrateRepoOption → Except String Repository)
    (opts : MigrateRepoOption) :
    ((opts.repoName = "" ∨ opts.repoOwner = "" ∨ opts.cloneAddr = "") →
      giteaMigrateRepo net opts = (.error migrateRepoParamError, [])) ∧
    (opts.repoName ≠ "" → opts.repoOwner ≠ "" → opts.cloneAddr ≠ "" →
      giteaMigrateRepo net opts
        = (net (mkSdkMigrateOption opts), [mkSdkMigrateOption opts])) := by
  constructor
  · intro h
    simp [giteaMigrateRepo, h]
  · intro h1 h2 h3
    simp [giteaMigrateRepo, h1, h2, h3]

/-- A concrete remote import endpoint used to instantiate `migrateRepo_validation`. -/
def netW : SdkMigrateRepoOption → Except String Repository :=
  fun o => .ok ⟨o.repoName⟩

def migOptEmpty : MigrateRepoOption :=
  { repoName := "", repoOwner := "acme", cloneAddr := "https://s/r.git",
    privateRepo := false, description := "", authUsername := "", authToken := "" }

def migOptFull : MigrateRepoOption :=
  { repoName := "r1", repoOwner := "acme", cloneAddr := "https://s/r.git",
    privateRepo := false, description := "", authUsername := "bot", authToken := "t" }

/-- C5 witness: an option with an empty name is rejected locally with no
call; a fully populated option reaches the import endpoint. -/
theorem migrateRepo_validation_witness :
    giteaMigrateRepo netW migOptEmpty = (.error migrateRepoParamError, []) ∧
    giteaMigrateRepo netW migOptFull
      = (netW (mkSdkMigrateOption migOptFull), [mkSdkMigrateOption migOptFull]) :=
  ⟨(migrateRepo_validation netW migOptEmpty).1 (by decide),
    (migrateRepo_validation netW migOptFull).2 (by decide) (by decide) (by decide)⟩

deriving instance DecidableEq for Except

/-- A concrete team environment in which the search finds a team. -/
def teamEnvHit : TeamEnv :=
  { searchOrgTeams := fun _ _ => .ok [⟨1, "dev"⟩]
    createTeam := fun _ o => .ok ⟨2, o.name⟩ }

/-- C1 counterexample: the token `"triager"` — the triage-role constant
`core.GitHubTeamTriager` — lies outside the claimed closed set
{pull, push, maintain, admin, triage}, yet `CreateOrGetTeam` returns no
error for it: the empty `case core.GitHubTeamTriager:` of the Go switch
skips the `default` error, so the function proceeds to the team search
and succeeds. -/
theorem createOrGetTeam_triager_counterexample :
    (GitHubTeamTriager ∉ ["pull", "push", "maintain", "admin", "triage"]) ∧
    (createOrGetTeam teamEnvHit "acme" ⟨"dev", "", GitHubTeamTriager⟩).1 = .ok ⟨1, "dev"⟩ ∧
    (createOrGetTeam teamEnvHit "acme" ⟨"dev", "", GitHubTeamTriager⟩).2
      = [.searchOrgTeams "acme" "dev"] := by
  decide

/-- C1 (amended): for the code's triage-role token `"triager"`,
`CreateOrGetTeam` does not error: the permission-mapping switch leaves
the payload untouched (the raw token, neither defaulted nor downgraded
to a recognized level) and the function proceeds to issue the team
search; for every token outside the code's recognized closed set
{pull, push, admin, maintain, triager} — the literal `"triage"`
included — it returns a "permission mode invalid" error before any
network call. -/
theorem createOrGetTeam_permission_mapping (env : TeamEnv) (org : String)
    (opts : CreateTeamOption) :
    (opts.permission = GitHubTeamTriager →
      createOrGetTeamOpt opts
          = .ok ⟨opts.name, opts.description, opts.permission, false, DefaultUnits⟩ ∧
        (createOrGetTeam env org opts).2 ≠ []) ∧
    (opts.permission ∉
        [GitHubTeamPull, GitHubTeamPush, GitHubTeamAdmin, GitHubTeamMaintain, GitHubTeamTriager] →
      createOrGetTeam env org opts = (.error "permission mode invalid", [])) := by
  constructor
  · intro h
    obtain ⟨n, d, p⟩ := opts
    simp only [CreateTeamOption.permission] at h
    subst h
    constructor
    · simp [createOrGetTeamOpt, GitHubTeamTriager, GitHubTeamAdmin, GitHubTeamPush,
        GitHubTeamPull, GitHubTeamMaintain]
    · have hopt : createOrGetTeamOpt ⟨n, d, GitHubTeamTriager⟩
          = .ok ⟨n, d, GitHubTeamTriager, false, DefaultUnits⟩ := by
        simp [createOrGetTeamOpt, GitHubTeamTriager, GitHubTeamAdmin, GitHubTeamPush,
          GitHubTeamPull, GitHubTeamMaintain]
      simp only [createOrGetTeam, hopt]
      cases hs : env.searchOrgTeams org n with
      | error e => simp
      | ok teams =>
        cases teams with
        | cons t ts => simp
        | nil =>
          cases hc : env.createTeam org ⟨n, d, GitHubTeamTriager, false, DefaultUnits⟩ with
          | error e => simp
          | ok t => simp
  · intro h
    simp only [List.mem_cons, List.mem_singleton, not_or] at h
    obtain ⟨h1, h2, h3, h4, h5⟩ := h
    simp [createOrGetTeam, createOrGetTeamOpt, h1, h2, h3, h4, h5]

/-- C1 (amended) witness: at the token `"triager"` the permission
mapping succeeds with the raw token and a search call is issued; at
the token `"triage"` the function errors with no call issued. -/
theorem createOrGetTeam_permission_mapping_witness :
    (createOrGetTeamOpt ⟨"dev", "", GitHubTeamTriager⟩
        = .ok ⟨"dev", "", GitHubTeamTriager, false, DefaultUnits⟩ ∧
      (createOrGetTeam teamEnvHit "acme" ⟨"dev", "", GitHubTeamTriager⟩).2 ≠ []) ∧
    createOrGetTeam teamEnvHit "acme" ⟨"dev", "", "triage"⟩
      = (.error "permission mode invalid", []) :=
  ⟨(createOrGetTeam_permission_mapping teamEnvHit "acme" ⟨"dev", "", GitHubTeamTriager⟩).1 rfl,
    (createOrGetTeam_permission_mapping teamEnvHit "acme" ⟨"dev", "", "triage"⟩).2 (by decide)⟩

/-- The collaborator-listing entry for alice: the repository listing
carries her permission bundle (admin). -/
def aliceListing : GhUser :=
  { login := "alice", type := "User", name := none, email := none,
    permissions := [("admin", true)] }

/-- The profile `GetUser("alice")` returns: a plain user lookup, which
carries no repository permission bundle. -/
def aliceProfile : GhUser :=
  { login := "alice", type := "User", name := some "Alice", email := none,
    permissions := [] }

def repoEnvC3 : RepoEnv :=
  { giteaMigrate := fun o => .ok ⟨o.repoName⟩
    listRepoCollaborators := fun _ _ => .ok [aliceListing]
    getUser := fun l => if l = "alice" then .ok aliceProfile else .error "not found"
    addCollaborator := fun _ => .ok () }

def repoOptsC3 : MigrateNewRepoOption :=
  { owner := "acme", name := "repo1", cloneAddr := "https://s/repo1.git",
    description := "", privateRepo := false, authUsername := "bot", authToken := "t" }

/-- C3: the loop variable is shadowed by the result of the `GetUser`
profile lookup before the grant is applied, so the bundle passed to
`AddCollaborator` is the profile's (empty, translated to read), not the
admin bundle carried by alice's entry in the collaborator listing. -/
theorem migrateNewRepo_bundle_from_profile_lookup :
    (migrateNewRepo repoEnvC3 repoOptsC3).2
        = [{ org := "acme", repo := "repo1", user := "alice", permission := [] }] ∧
    aliceListing.permissions = [("admin", true)] ∧
    addCollaboratorAccess [] = AccessModeRead ∧
    addCollaboratorAccess aliceListing.permissions = AccessModeAdmin := by
  decide

/-- C7: entries whose type is not `"User"` issue no grant call, and
when each listed user-type login resolves, the number of grant calls is
exactly the number of user-type entries in the listing. -/
theorem migrateNewRepo_user_type_filter (env : RepoEnv) (opts : MigrateNewRepoOption)
    (repo : Repository) (ghUsers : List GhUser)
    (hmig : (giteaMigrateRepo env.giteaMigrate (mkMigrateOption opts)).1 = .ok repo)
    (hlist : env.listRepoCollaborators opts.owner opts.name = .ok ghUsers)
    (hget : ∀ u ∈ ghUsers, u.type = "User" → ∃ f, env.getUser u.login = .ok f) :
    (∀ u ∈ ghUsers, u.type ≠ "User" → collabStep env opts.owner opts.name u = []) ∧
    ((migrateNewRepo env opts).2).length
      = (ghUsers.filter (fun u => u.type = "User")).length := by
  constructor
  · intro u _ hu
    simp [collabStep, hu]
  · simp only [migrateNewRepo, hmig, hlist]
    clear hlist
    induction ghUsers with
    | nil => simp
    | cons u rest ih =>
      have hu := hget u (List.mem_cons_self u rest)
      have hrest : ∀ v ∈ rest, v.type = "User" → ∃ f, env.getUser v.login = .ok f :=
        fun v hv => hget v (List.mem_cons_of_mem u hv)
      by_cases ht : u.type = "User"
      · obtain ⟨f, hf⟩ := hu ht
        simp [collabStep, ht, hf, List.filter_cons, ih hrest]
      · simp [collabStep, ht, List.filter_cons, ih hrest]

def repoEnvC7 : RepoEnv :=
  { giteaMigrate := fun o => .ok ⟨o.repoName⟩
    listRepoCollaborators := fun _ _ =>
      .ok [{ login := "alice", type := "User", name := none, email := none,
             permissions := [("push", true)] },
           { login := "ci-bot", type := "Bot", name := none, email := none,
             permissions := [("pull", true)] }]
    getUser := fun l =>
      if l = "alice" then
        .ok { login := "alice", type := "User", name := some "Alice", email := none,
              permissions := [] }
      else .error "not found"
    addCollaborator := fun _ => .ok () }

/-- C7 witness: a listing with one user-type and one bot entry produces
exactly one grant call. -/
theorem migrateNewRepo_user_type_filter_witness :
    ((migrateNewRepo repoEnvC7 repoOptsC3).2).length = 1 := by
  have h := migrateNewRepo_user_type_filter repoEnvC7 repoOptsC3 ⟨"repo1"⟩
    [{ login := "alice", type := "User", name := none, email := none,
       permissions := [("push", true)] },
     { login := "ci-bot", type := "Bot", name := none, email := none,
       permissions := [("pull", true)] }]
    (by decide) rfl ?_
  · exact h.2.trans (by decide)
  · intro u hu ht
    simp only [List.mem_cons, List.not_mem_nil, or_false] at hu
    rcases hu with h1 | h2
    · subst h1
      exact ⟨_, rfl⟩
    · subst h2
      exact absurd ht (by decide)

/-- C4: once the run reaches the repository loop, every repository of
the source organization is attempted in order — the loop body only
logs a `MigrateNewRepo` failure, it never breaks or returns — and the
function ends with a nil error regardless of how many attempts failed. -/
theorem migrateOrgAndRepos_fault_isolation (env : MainEnv) (cfg : MainConfig)
    (ghUser : GhUser) (gtUser : GtUser) (ghOrg : GhOrg) (org : Organization)
    (repos : List GhRepo)
    (h1 : env.ghCurrentUser = .ok ghUser)
    (h2 : env.gtCurrentUser = .ok gtUser)
    (h3 : env.getOrg cfg.sourceOrg = .ok ghOrg)
    (h4 : env.createNewOrg
        ⟨cfg.targetOrg, fromPtr ghOrg.description, false, cfg.gtSourceID⟩ = .ok org)
    (h5 : env.listOrgRepos cfg.sourceOrg = .ok repos) :
    (migrateOrgAndRepos env cfg).1 = .ok () ∧
    (migrateOrgAndRepos env cfg).2
      = repos.map (fun r =>
          (mkRepoOption cfg ghUser r, env.migrateNewRepo (mkRepoOption cfg ghUser r))) ∧
    ((migrateOrgAndRepos env cfg).2).length = repos.length := by
  have hrun : migrateOrgAndRepos env cfg
      = (.ok (), repos.map (fun r =>
          (mkRepoOption cfg ghUser r, env.migrateNewRepo (mkRepoOption cfg ghUser r)))) := by
    simp [migrateOrgAndRepos, h1, h2, h3, h4, h5]
  refine ⟨by rw [hrun], by rw [hrun], ?_⟩
  rw [hrun]
  exact List.length_map _ _

def repoR1 : GhRepo := ⟨some "acme", some "r1", some "https://s/r1.git", some "", some false⟩

def repoR2 : GhRepo := ⟨some "acme", some "r2", some "https://s/r2.git", some "", some false⟩

def repoR3 : GhRepo := ⟨some "acme", some "r3", some "https://s/r3.git", some "", some false⟩

/-- A run in which migrating the second of three repositories fails. -/
def mainEnvC4 : MainEnv :=
  { ghCurrentUser := .ok { login := "bot", type := "User", name := none, email := none,
                           permissions := [] }
    gtCurrentUser := .ok ⟨"bot", "bot"⟩
    getOrg := fun _ => .ok ⟨some "org desc", some "acme"⟩
    createNewOrg := fun _ => .ok ⟨"acme-gt"⟩
    listOrgRepos := fun _ => .ok [repoR1, repoR2, repoR3]
    migrateNewRepo := fun o => if o.name = "r2" then .error "boom" else .ok () }

def mainCfgC4 : MainConfig := ⟨"tok", "acme", "acme-gt", 0⟩

/-- C4 witness: with three repositories of which the second fails, all
three are attempted (the failed attempt in the middle of the trace) and
the run ends with a nil error. -/
theorem migrateOrgAndRepos_fault_isolation_witness :
    (migrateOrgAndRepos mainEnvC4 mainCfgC4).1 = .ok () ∧
    ((migrateOrgAndRepos mainEnvC4 mainCfgC4).2).length = 3 ∧
    ((migrateOrgAndRepos mainEnvC4 mainCfgC4).2).map Prod.snd
      = [.ok (), .error "boom", .ok ()] := by
  have h := migrateOrgAndRepos_fault_isolation mainEnvC4 mainCfgC4
    { login := "bot", type := "User", name := none, email := none, permissions := [] }
    ⟨"bot", "bot"⟩ ⟨some "org desc", some "acme"⟩ ⟨"acme-gt"⟩
    [repoR1, repoR2, repoR3] rfl rfl rfl rfl rfl
  refine ⟨h.1, h.2.2.trans rfl, ?_⟩
  rw [h.2.1]
  decide

/-- The first component of a team-loop iteration — the recorded
`CreateOrGetTeam` call — does not depend on the remote outcomes. -/
theorem teamStep_fst (env : OrgEnv) (orgName : String) (ghTeam : GhTeam) :
    (teamStep env orgName ghTeam).1
      = (orgName,
          ⟨sanitizeTeamName (fromPtr ghTeam.name), fromPtr ghTeam.description,
            fromPtr ghTeam.permission⟩) := by
  simp only [teamStep]
  cases env.createOrGetTeam orgName _ with
  | error e => rfl
  | ok team =>
    cases env.listOrgTeamsMembers orgName ghTeam.slug with
    | error e => rfl
    | ok members => rfl

/-- C6: every `CreateOrGetTeam` call issued by the team-replication
loop carries the sanitized source team name; sanitization replaces each
character outside `[A-Za-z0-9._-]` one-for-one with `_` (so the length
is preserved), and in particular `"Infra/Ops!"` becomes `"Infra_Ops_"`. -/
theorem createNewOrg_sanitizes_team_names (env : OrgEnv) (opts : CreateNewOrgOption)
    (org : Organization) (users : List GhUser) (teams : List GhTeam)
    (h1 : env.createAndGetOrg
        ⟨opts.name, opts.description,
          if opts.public then VisibleTypePublic else VisibleTypePrivate⟩ = .ok org)
    (h2 : env.listOrgUsers opts.name = .ok users)
    (h3 : env.listOrgTeams opts.name = .ok teams) :
    (createNewOrg env opts).teamCalls
      = teams.map (fun t =>
          (opts.name,
            ⟨sanitizeTeamName (fromPtr t.name), fromPtr t.description,
              fromPtr t.permission⟩)) ∧
    (∀ s : String, (sanitizeTeamName s).data
        = s.data.map (fun c => if isAllowedTeamChar c then c else '_')) ∧
    (∀ s : String, (sanitizeTeamName s).length = s.length) ∧
    sanitizeTeamName "Infra/Ops!" = "Infra_Ops_" := by
  refine ⟨?_, fun s => rfl, ?_, by decide⟩
  · simp only [createNewOrg, h1, h2, h3, List.map_map]
    exact List.map_congr_left fun t _ => teamStep_fst env opts.name t
  · intro s
    show (s.data.map _).length = s.data.length
    exact List.length_map _ _

def orgTeamInfra : GhTeam := ⟨some "Infra/Ops!", some "infra team", some "push", "infra-ops"⟩

def orgEnvC6 : OrgEnv :=
  { createAndGetOrg := fun o => .ok ⟨o.name⟩
    listOrgUsers := fun _ => .ok []
    getUser := fun _ => .error "not found"
    createOrGetUser := fun _ => .error "not found"
    getUserPermissionFromOrg := fun _ _ => .error "not found"
    listOrgTeams := fun _ => .ok [orgTeamInfra]
    createOrGetTeam := fun _ o => .ok ⟨1, o.name⟩
    listOrgTeamsMembers := fun _ _ => .ok []
    addTeamMember := fun _ _ => .ok () }

def orgOptsC6 : CreateNewOrgOption := ⟨"acme-gt", "d", false, 0⟩

/-- C6 witness: a source team named `"Infra/Ops!"` is looked
up-or-created on the destination as `"Infra_Ops_"`. -/
theorem createNewOrg_sanitizes_team_names_witness :
    (createNewOrg orgEnvC6 orgOptsC6).teamCalls
      = [("acme-gt", ⟨"Infra_Ops_", "infra team", "push"⟩)] := by
  have h := createNewOrg_sanitizes_team_names orgEnvC6 orgOptsC6
    ⟨"acme-gt"⟩ [] [orgTeamInfra] rfl rfl rfl
  rw [h.1]
  decide

/-- C10: when listing the source organization teams fails, the error is
discarded: the run emits no error log for it, replicates zero teams
(the loop ranges over the empty listing), and `CreateNewOrg` still
returns the created-or-reused organization with a nil error. -/
theorem createNewOrg_team_listing_error_discarded (env : OrgEnv)
    (opts : CreateNewOrgOption) (org : Organization) (users : List GhUser) (e : String)
    (h1 : env.createAndGetOrg
        ⟨opts.name, opts.description,
          if opts.public then VisibleTypePublic else VisibleTypePrivate⟩ = .ok org)
    (h2 : env.listOrgUsers opts.name = .ok users)
    (h3 : env.listOrgTeams opts.name = .error e) :
    createNewOrg env opts
      = ⟨.ok org, [], (users.map (memberStepLogs env opts.name opts.soucreID)).flatten⟩ := by
  simp [createNewOrg, h1, h2, h3]

def orgEnvC10 : OrgEnv :=
  { createAndGetOrg := fun o => .ok ⟨o.name⟩
    listOrgUsers := fun _ => .ok []
    getUser := fun _ => .error "not found"
    createOrGetUser := fun _ => .error "not found"
    getUserPermissionFromOrg := fun _ _ => .error "not found"
    listOrgTeams := fun _ => .error "team listing failed"
    createOrGetTeam := fun _ o => .ok ⟨1, o.name⟩
    listOrgTeamsMembers := fun _ _ => .ok []
    addTeamMember := fun _ _ => .ok () }

/-- C10 witness: with a failing team listing the function returns the
organization with a nil error, no team calls and no error logs. -/
theorem createNewOrg_team_listing_error_discarded_witness :
    createNewOrg orgEnvC10 orgOptsC6 = ⟨.ok ⟨"acme-gt"⟩, [], []⟩ :=
  createNewOrg_team_listing_error_discarded orgEnvC10 orgOptsC6
    ⟨"acme-gt"⟩ [] "team listing failed" rfl rfl rfl

/-- Away from the header index, the roster loop keeps exactly the rows
with at least five columns. -/
theorem readUserListGo_of_ne_zero (rows : List (List String)) :
    ∀ idx : Nat, idx ≠ 0 →
      readUserListGo idx rows
        = (rows.filter (fun r => 5 ≤ r.length)).map
            (fun r => ⟨r.getD 2 "", r.getD 3 "", r.getD 4 ""⟩) := by
  induction rows with
  | nil =>
    intro idx h
    rfl
  | cons rec rest ih =>
    intro idx h
    by_cases h5 : rec.length < 5
    · have h5f : ¬ 5 ≤ rec.length := by omega
      simp [readUserListGo, h, h5, List.filter_cons, h5f, ih (idx + 1) (by omega)]
    · have h5t : 5 ≤ rec.length := by omega
      simp [readUserListGo, h, h5, List.filter_cons, h5t, ih (idx + 1) (by omega)]

/-- C8: `readUserList` skips the header row (index 0) and every row
with fewer than five columns, and maps each remaining row to one entry
taking login, email and role from the third, fourth and fifth columns;
a table with a header and three data rows whose second data row has
only four columns yields exactly the first and third data rows. -/
theorem readUserList_spec :
    (∀ (hd : List String) (rows : List (List String)),
      readUserList (hd :: rows)
        = (rows.filter (fun r => 5 ≤ r.length)).map
            (fun r => ⟨r.getD 2 "", r.getD 3 "", r.getD 4 ""⟩)) ∧
    readUserList ([] : List (List String)) = [] ∧
    readUserList
        [["created_at", "id", "login", "email", "role"],
         ["2024-01-01", "1", "alice", "alice@x", "admin"],
         ["2024-01-02", "2", "bob", "bob@x"],
         ["2024-01-03", "3", "carol", "carol@x", "member"]]
      = [⟨"alice", "alice@x", "admin"⟩, ⟨"carol", "carol@x", "member"⟩] := by
  refine ⟨?_, rfl, by decide⟩
  intro hd rows
  show readUserListGo 0 (hd :: rows) = _
  have h0 : readUserListGo 0 (hd :: rows) = readUserListGo 1 rows := by
    simp [readUserListGo]
  rw [h0, readUserListGo_of_ne_zero rows 1 one_ne_zero]

/-- Each key-loop iteration increments exactly one of the three
counters: their sum grows by one. -/
theorem keyStep_total (c : KeyCounters) (o : UploadOutcome) :
    (keyStep c o).success + (keyStep c o).exist + (keyStep c o).failed
      = c.success + c.exist + c.failed + 1 := by
  cases o with
  | ok =>
    simp [keyStep]
    omega
  | giteaErr op code msg =>
    simp only [keyStep]
    split
    · simp
      omega
    · simp
      omega
  | otherErr m =>
    simp only [keyStep]
    split
    · simp
      omega
    · simp
      omega

/-- The counter sum over a whole key loop, from any starting counters. -/
theorem migrateKeyCounters_total_aux (outcomes : List UploadOutcome) :
    ∀ c : KeyCounters,
      (outcomes.foldl keyStep c).success + (outcomes.foldl keyStep c).exist
          + (outcomes.foldl keyStep c).failed
        = c.success + c.exist + c.failed + outcomes.length := by
  induction outcomes with
  | nil =>
    intro c
    simp
  | cons o rest ih =>
    intro c
    simp only [List.foldl_cons, List.length_cons]
    rw [ih (keyStep c o), keyStep_total]
    omega

/-- C9 counterexample: an upload failure whose error message carries
the duplicate-key phrase but whose status code is not 422 increments
the failure counter, not the duplicate counter. -/
theorem keyStep_duplicate_message_not_sufficient :
    containsKeyUsedMsg "Key content has been used" = true ∧
    keyStep ⟨0, 0, 0⟩ (.giteaErr "create_public_key" 500 "Key content has been used")
      = ⟨0, 0, 1⟩ := by
  decide

/-- C9 (amended): a successful upload increments the success counter;
a failure that is a `GiteaError` with HTTP status 422 and a non-empty
message carrying the known duplicate-key phrase increments the
duplicate (exists) counter; every other failure increments the failure
counter; and each key affects exactly one of the three counters, so the
counters of a whole loop sum to the number of keys. -/
theorem ssh_key_counters (outcomes : List UploadOutcome) :
    ((migrateKeyCounters outcomes).success + (migrateKeyCounters outcomes).exist
        + (migrateKeyCounters outcomes).failed = outcomes.length) ∧
    (∀ c : KeyCounters, keyStep c .ok = { c with success := c.success + 1 }) ∧
    (∀ (c : KeyCounters) (op : String) (code : Nat) (msg : String),
      code = 422 → msg ≠ "" → containsKeyUsedMsg msg = true →
        keyStep c (.giteaErr op code msg) = { c with exist := c.exist + 1 }) ∧
    (∀ (c : KeyCounters) (o : UploadOutcome), o ≠ .ok → isDuplicateKeyErr o = false →
      keyStep c o = { c with failed := c.failed + 1 }) ∧
    isDuplicateKeyErr (.giteaErr "create_public_key" 422 "Key content has been used") = true := by
  refine ⟨?_, fun c => rfl, ?_, ?_, by decide⟩
  · have h := migrateKeyCounters_total_aux outcomes ⟨0, 0, 0⟩
    simpa [migrateKeyCounters] using h
  · intro c op code msg h1 h2 h3
    simp [keyStep, isDuplicateKeyErr, h1, h2, h3]
  · intro c o h1 h2
    cases o with
    | ok => exact absurd rfl h1
    | giteaErr op code msg => simp [keyStep, h2]
    | otherErr m => simp [keyStep, h2]

/-- C9 (amended) witness: a 422 duplicate-key failure increments the
duplicate counter; a non-`GiteaError` failure increments the failure
counter. -/
theorem ssh_key_counters_witness :
    keyStep ⟨0, 0, 0⟩ (.giteaErr "create_public_key" 422 "Key content has been used")
        = ⟨0, 1, 0⟩ ∧
    keyStep ⟨0, 0, 0⟩ (.otherErr "connection reset") = ⟨0, 0, 1⟩ :=
  ⟨(ssh_key_counters []).2.2.1 ⟨0, 0, 0⟩ "create_public_key" 422
      "Key content has been used" rfl (by decide) (by decide),
    (ssh_key_counters []).2.2.2.1 ⟨0, 0, 0⟩ (.otherErr "connection reset")
      (by decide) (by decide)⟩

end GH2GT
